import Mathlib

/-!
Verification of the PyRepRap client (pyreprap.py).

The client wraps a line-oriented Telnet connection to 3D-printer firmware.
We embed it shallowly: the connection is a transcript state holding the
lines still to be delivered by the printer (`input`), the lines written by
the client (`sent`), and the timeout used by each read, in order (`reads`).
Pure string operations from Python (`str.strip("\r\n")`, `str.startswith`)
are translated directly; `json.loads` is modelled by an executable JSON
parser (numbers restricted to integers, which suffices for the status
protocol). Fallible Python calls (JSON parse errors, dict key errors)
return `Except`.
-/

/-- Characters stripped by Python `s.strip("\r\n")`. -/
def isCRLF (c : Char) : Bool := c == '\r' || c == '\n'

/-- Python `s.strip("\r\n")`: removes every leading and trailing
carriage-return or newline character (Python `str.strip` strips BOTH ends). -/
def pyStrip (s : String) : String :=
  String.mk (((s.data.dropWhile isCRLF).reverse.dropWhile isCRLF).reverse)

/-- Python `s.startswith(pre)`. -/
def pyStartswith (s pre : String) : Bool :=
  pre.data.isPrefixOf s.data

/-- State of the Telnet connection transcript: the response lines the
printer will deliver, the command lines the client has written (in order),
and the timeout in seconds used by each completed read (in order). -/
structure ConnState where
  input : List String
  sent : List String
  reads : List Nat
deriving Repr, DecidableEq

/-- RepRap._sendRawGCode: writes the string to the telnet connection. -/
def sendRawGCode (gcode : String) (st : ConnState) : ConnState :=
  { st with sent := st.sent ++ [gcode] }

/-- RepRap._readResponse: reads one line from the telnet connection with the
given timeout (Python default 10), stripping leading/trailing CR and LF via
`s.strip("\r\n")`. On timeout with no data available the underlying
`read_until` yields the empty string rather than raising. -/
def readResponse (timeout : Nat) (st : ConnState) : String × ConnState :=
  match st.input with
  | [] => (pyStrip "", { st with reads := st.reads ++ [timeout] })
  | l :: rest =>
      (pyStrip l, { st with input := rest, reads := st.reads ++ [timeout] })

/-- RepRap.hashFile: sends `M38 <filepath>\n`, reads one line with a
120-second timeout; if it starts with "Error:" reads one more line with the
default 10-second timeout; if the resulting line starts with
"Cannot find file" returns the empty string, else returns the line. -/
def hashFile (filepath : String) (st : ConnState) : String × ConnState :=
  let st1 := sendRawGCode ("M38 " ++ filepath ++ "\n") st
  let p1 := readResponse 120 st1
  let p2 := if pyStartswith p1.1 "Error:" then readResponse 10 p1.2 else p1
  if pyStartswith p2.1 "Cannot find file" then ("", p2.2) else p2

/-- RepRap.printFile: sends `M32 <filepath>\n` and reads nothing. -/
def printFile (filepath : String) (st : ConnState) : ConnState :=
  sendRawGCode ("M32 " ++ filepath ++ "\n") st

/-- JSON values as produced by the modelled `json.loads`. Numbers are
restricted to integers (the status protocol uses only integers). -/
inductive Json where
  | null : Json
  | bool (b : Bool) : Json
  | num (n : Int) : Json
  | str (s : String) : Json
  | arr (xs : List Json) : Json
  | obj (fields : List (String × Json)) : Json

/-- Failure kinds raised by the modelled Python calls. -/
inductive PyErr where
  | parseError : PyErr
  | keyError : PyErr
  | typeError : PyErr
deriving Repr, DecidableEq

/-- JSON whitespace. -/
def isJsonWs : Char → Bool
  | ' ' => true
  | '\t' => true
  | '\n' => true
  | '\r' => true
  | _ => false

/-- Drop leading JSON whitespace. -/
def skipWs (cs : List Char) : List Char := cs.dropWhile isJsonWs

/-- Decode one JSON string-escape character: the self-representing escapes
(quote, backslash, slash) map to themselves, the letter escapes to their
control characters. -/
def escChar (e : Char) : Option Char :=
  if e == 'n' then some '\n'
  else if e == 't' then some '\t'
  else if e == 'r' then some '\r'
  else if e == 'b' then some (Char.ofNat 8)
  else if e == 'f' then some (Char.ofNat 12)
  else if e == '"' || e == '\\' || e == '/' then some e
  else none

/-- Scan the body of a JSON string (opening quote already consumed);
returns the decoded characters and the input after the closing quote. -/
def jsonStringAux : List Char → Option (List Char × List Char)
  | [] => none
  | '"' :: cs => some ([], cs)
  | '\\' :: e :: cs =>
      match escChar e with
      | some c => (jsonStringAux cs).map (fun r => (c :: r.1, r.2))
      | none => none
  | c :: cs => (jsonStringAux cs).map (fun r => (c :: r.1, r.2))

/-- Digits to a natural number. -/
def digitsToNat (ds : List Char) : Nat :=
  ds.foldl (fun a c => a * 10 + (c.toNat - 48)) 0

/-- Parse a JSON integer (optional minus sign, then digits). -/
def jsonNumber : List Char → Option (Int × List Char)
  | '-' :: cs =>
      let ds := cs.takeWhile Char.isDigit
      if ds.isEmpty then none
      else some (-(digitsToNat ds : Int), cs.dropWhile Char.isDigit)
  | cs =>
      let ds := cs.takeWhile Char.isDigit
      if ds.isEmpty then none
      else some ((digitsToNat ds : Int), cs.dropWhile Char.isDigit)

/-- Opening brace character (written via its code point). -/
def lbrace : Char := Char.ofNat 123

/-- Closing brace character (written via its code point). -/
def rbrace : Char := Char.ofNat 125

/-- Partially built JSON containers during parsing. -/
inductive Frame where
  | arrF (items : List Json) : Frame
  | objF (fields : List (String × Json)) (key : String) : Frame

/-- Parser mode: parse the next value, or fold a finished value into the
enclosing container stack. -/
inductive PMode where
  | value (cs : List Char) (stack : List Frame) : PMode
  | done (j : Json) (cs : List Char) (stack : List Frame) : PMode

/-- Parse a key-colon sequence after an opening quote position. -/
def parseKeyColon (cs : List Char) : Option (String × List Char) :=
  match skipWs cs with
  | '"' :: r => match jsonStringAux r with
      | some kr =>
          match skipWs kr.2 with
          | ':' :: r2 => some (String.mk kr.1, r2)
          | _ => none
      | none => none
  | _ => none

/-- Iterative JSON parser: a pushdown automaton driven by fuel, so that it
is structurally recursive and kernel-evaluable. -/
def runP : Nat → PMode → Option (Json × List Char)
  | 0, _ => none
  | Nat.succ fuel, PMode.value cs stack =>
      match skipWs cs with
      | [] => none
      | c :: rest =>
          if c == '"' then
            match jsonStringAux rest with
            | some r => runP fuel (PMode.done (Json.str (String.mk r.1)) r.2 stack)
            | none => none
          else if c == '[' then
            match skipWs rest with
            | ']' :: r2 => runP fuel (PMode.done (Json.arr []) r2 stack)
            | _ => runP fuel (PMode.value rest (Frame.arrF [] :: stack))
          else if c == lbrace then
            match skipWs rest with
            | [] => none
            | c2 :: r2 =>
                if c2 == rbrace then
                  runP fuel (PMode.done (Json.obj []) r2 stack)
                else
                  match parseKeyColon rest with
                  | some kr =>
                      runP fuel (PMode.value kr.2 (Frame.objF [] kr.1 :: stack))
                  | none => none
          else if c == 'n' then
            match rest with
            | 'u' :: 'l' :: 'l' :: r2 => runP fuel (PMode.done Json.null r2 stack)
            | _ => none
          else if c == 't' then
            match rest with
            | 'r' :: 'u' :: 'e' :: r2 => runP fuel (PMode.done (Json.bool true) r2 stack)
            | _ => none
          else if c == 'f' then
            match rest with
            | 'a' :: 'l' :: 's' :: 'e' :: r2 => runP fuel (PMode.done (Json.bool false) r2 stack)
            | _ => none
          else
            match jsonNumber (c :: rest) with
            | some nr => runP fuel (PMode.done (Json.num nr.1) nr.2 stack)
            | none => none
  | Nat.succ fuel, PMode.done j cs stack =>
      match stack with
      | [] => some (j, cs)
      | Frame.arrF items :: rest =>
          match skipWs cs with
          | ',' :: r2 => runP fuel (PMode.value r2 (Frame.arrF (j :: items) :: rest))
          | ']' :: r2 => runP fuel (PMode.done (Json.arr (j :: items).reverse) r2 rest)
          | _ => none
      | Frame.objF fields key :: rest =>
          match skipWs cs with
          | ',' :: r2 =>
              match parseKeyColon r2 with
              | some kr =>
                  runP fuel (PMode.value kr.2 (Frame.objF ((key, j) :: fields) kr.1 :: rest))
              | none => none
          | c2 :: r2 =>
              if c2 == rbrace then
                runP fuel (PMode.done (Json.obj ((key, j) :: fields).reverse) r2 rest)
              else none
          | [] => none

/-- Model of Python `json.loads`: parse a complete JSON document, allowing
surrounding whitespace; `none` models the raised decode error. -/
def json_loads (s : String) : Option Json :=
  match runP (2 * s.length + 2) (PMode.value s.data []) with
  | some r => if (skipWs r.2).isEmpty then some r.1 else none
  | none => none

/-- RepRap.getStatusResponse: clamps the level to at most 2, sends
`M408 S<level>\n`, reads one line with the default 10-second timeout,
returns `none` for an empty line, otherwise the `json.loads` result
(a decode error propagates as `parseError`). -/
def getStatusResponse (level : Int) (st : ConnState) :
    Except PyErr (Option Json) × ConnState :=
  let lvl := min level 2
  let st1 := sendRawGCode ("M408 S" ++ toString lvl ++ "\n") st
  let p := readResponse 10 st1
  if p.1 = "" then (Except.ok none, p.2)
  else
    match json_loads p.1 with
    | some j => (Except.ok (some j), p.2)
    | none => (Except.error PyErr.parseError, p.2)

/-- Python dict lookup for an object built by `json.loads` from a field
list: with duplicate keys the later binding wins. -/
def lookupDict (fields : List (String × Json)) (k : String) : Option Json :=
  (fields.reverse.find? (fun p => p.1 == k)).map Prod.snd

/-- Python subscripting `v[k]` on a decoded JSON value: a missing key in a
dict raises KeyError; subscripting a non-dict by a string raises TypeError. -/
def subscript (v : Json) (k : String) : Except PyErr Json :=
  match v with
  | Json.obj fields =>
      match lookupDict fields k with
      | some x => Except.ok x
      | none => Except.error PyErr.keyError
  | _ => Except.error PyErr.typeError

/-- Python equality `v == 'P'`-style: a decoded JSON value equals a Python
string exactly when it is that string. -/
def pyEqStr (v : Json) (t : String) : Bool :=
  match v with
  | Json.str s => s == t
  | _ => false

/-- RepRap.isPrinting: delegates to getStatusResponse at the default level 2;
None yields false, otherwise compares the snapshot's 'status' field to 'P'.
A parse failure or a missing 'status' key propagates. -/
def isPrinting (st : ConnState) : Except PyErr Bool × ConnState :=
  let p := getStatusResponse 2 st
  match p.1 with
  | Except.error e => (Except.error e, p.2)
  | Except.ok none => (Except.ok false, p.2)
  | Except.ok (some status) =>
      match subscript status "status" with
      | Except.error e => (Except.error e, p.2)
      | Except.ok v => (Except.ok (pyEqStr v "P"), p.2)

/-- A RepRap client instance as built by RepRap.__init__: it opens and owns
only the Telnet connection to (host, telnet_port); nothing else is stored. -/
structure RepRap where
  host : String
  telnet_port : Int
  conn : ConnState
deriving Repr, DecidableEq

/-- RepRap.__init__(host, telnet_port=23, ftp_port=21): connects via Telnet;
the incoming stream is the environment's pending response lines. The
ftp_port argument appears in the signature but the body only opens the
Telnet connection. -/
def mkRepRap (host : String) (telnet_port : Int) (ftp_port : Int)
    (incoming : List String) : RepRap :=
  let _unused := ftp_port
  { host := host, telnet_port := telnet_port
    conn := { input := incoming, sent := [], reads := [] } }

/-- One client operation, for quantifying over call sequences. -/
inductive Op where
  | hash (fp : String) : Op
  | printF (fp : String) : Op
  | status (level : Int) : Op
  | printing : Op

/-- Observable outcome of one operation. -/
inductive Outcome where
  | hashed (s : String) : Outcome
  | printed : Outcome
  | statusR (r : Except PyErr (Option Json)) : Outcome
  | printingR (r : Except PyErr Bool) : Outcome

/-- Run a sequence of operations on a client, collecting every observable
result together with the final client (whose transcript holds every byte
sent). -/
def runOps : List Op → RepRap → List Outcome × RepRap
  | [], r => ([], r)
  | op :: ops, r =>
      let step : Outcome × ConnState :=
        match op with
        | Op.hash fp =>
            let p := hashFile fp r.conn
            (Outcome.hashed p.1, p.2)
        | Op.printF fp => (Outcome.printed, printFile fp r.conn)
        | Op.status level =>
            let p := getStatusResponse level r.conn
            (Outcome.statusR p.1, p.2)
        | Op.printing =>
            let p := isPrinting r.conn
            (Outcome.printingR p.1, p.2)
      let rec2 := runOps ops { r with conn := step.2 }
      (step.1 :: rec2.1, rec2.2)

/-! Helper lemmas. -/

/-- A line cannot start with both "Error:" and "Cannot find file". -/
lemma error_not_cannot (s : String)
    (h1 : pyStartswith s "Error:" = true)
    (h2 : pyStartswith s "Cannot find file" = true) : False := by
  simp only [pyStartswith, List.isPrefixOf_iff_prefix] at h1 h2
  obtain ⟨t1, e1⟩ := h1
  obtain ⟨t2, e2⟩ := h2
  have h := congrArg List.head? (e1.trans e2.symm)
  rw [show ("Error:".data ++ t1).head? = some 'E' from rfl,
    show ("Cannot find file".data ++ t2).head? = some 'C' from rfl] at h
  exact absurd (Option.some.inj h) (by decide)

/-- A "Cannot find file" line does not start with "Error:". -/
lemma cannot_imp_not_error (s : String)
    (h : pyStartswith s "Cannot find file" = true) :
    pyStartswith s "Error:" = false := by
  cases he : pyStartswith s "Error:" with
  | false => rfl
  | true => exact absurd (error_not_cannot s he h) not_false

/-- Decoded-value equality with the Python string 'P'. -/
lemma pyEqStr_P_iff (v : Json) : pyEqStr v "P" = true ↔ v = Json.str "P" := by
  cases v <;> simp [pyEqStr]

/-- Evaluation of readResponse in terms of the state fields. -/
lemma readResponse_eval (t : Nat) (st : ConnState) :
    readResponse t st =
      (pyStrip (st.input.headD ""),
       { st with input := st.input.tail, reads := st.reads ++ [t] }) := by
  cases st with
  | mk input sent reads => cases input <;> rfl

/-- Evaluation of hashFile after an initial "Error:"-prefixed line. -/
lemma hashFile_eval_error (fp l1 l2 : String) (rest sent : List String)
    (reads : List Nat)
    (hE : pyStartswith (pyStrip l1) "Error:" = true) :
    hashFile fp ⟨l1 :: l2 :: rest, sent, reads⟩ =
      (if pyStartswith (pyStrip l2) "Cannot find file" then "" else pyStrip l2,
       ⟨rest, sent ++ ["M38 " ++ fp ++ "\n"], reads ++ [120, 10]⟩) := by
  simp only [hashFile, sendRawGCode, readResponse, hE, if_true]
  split <;> simp_all

/-! Claim theorems. -/

/-- C7: printFile writes exactly the single line `M32 <filepath>\n`, reads
no response line (the read transcript is unchanged, no input is consumed),
and returns no value beyond the updated connection. -/
theorem printFile_fire_and_forget (fp : String) (st : ConnState) :
    (printFile fp st).sent = st.sent ++ ["M32 " ++ fp ++ "\n"] ∧
    (printFile fp st).input = st.input ∧
    (printFile fp st).reads = st.reads :=
  ⟨rfl, rfl, rfl⟩

/-- C2: a response line starting with neither "Error:" nor
"Cannot find file" is returned verbatim by hashFile as the hash string. -/
theorem hashFile_identity (fp l : String) (rest sent : List String)
    (reads : List Nat)
    (hE : pyStartswith (pyStrip l) "Error:" = false)
    (hC : pyStartswith (pyStrip l) "Cannot find file" = false) :
    hashFile fp ⟨l :: rest, sent, reads⟩ =
      (pyStrip l, ⟨rest, sent ++ ["M38 " ++ fp ++ "\n"], reads ++ [120]⟩) := by
  simp [hashFile, sendRawGCode, readResponse, hE, hC]

/-- C2 witness: a concrete non-error line is returned verbatim. -/
theorem hashFile_identity_witness :
    hashFile "f.g" ⟨["abc123\r\n"], [], []⟩ =
      ("abc123", ⟨[], ["M38 f.g\n"], [120]⟩) :=
  hashFile_identity "f.g" "abc123\r\n" [] [] [] (by decide) (by decide)

/-- C1: after sending M38, a first response line starting with "Error:"
causes exactly one further read, with the default 10-second timeout; the
second line replaces the first as the result, with no further skipping, so
a second consecutive "Error:"-prefixed line is returned as the result. -/
theorem hashFile_error_skip (fp l1 l2 : String) (rest sent : List String)
    (reads : List Nat)
    (hE : pyStartswith (pyStrip l1) "Error:" = true) :
    (hashFile fp ⟨l1 :: l2 :: rest, sent, reads⟩).2.reads =
      reads ++ [120, 10] ∧
    (hashFile fp ⟨l1 :: l2 :: rest, sent, reads⟩).2.input = rest ∧
    (pyStartswith (pyStrip l2) "Cannot find file" = false →
      (hashFile fp ⟨l1 :: l2 :: rest, sent, reads⟩).1 = pyStrip l2) ∧
    (pyStartswith (pyStrip l2) "Error:" = true →
      (hashFile fp ⟨l1 :: l2 :: rest, sent, reads⟩).1 = pyStrip l2) := by
  rw [hashFile_eval_error fp l1 l2 rest sent reads hE]
  refine ⟨rfl, rfl, fun h2 => by simp [h2], fun h2 => ?_⟩
  have hc : pyStartswith (pyStrip l2) "Cannot find file" = false := by
    cases hx : pyStartswith (pyStrip l2) "Cannot find file" with
    | false => rfl
    | true => exact absurd (error_not_cannot (pyStrip l2) h2 hx) not_false
  simp [hc]

/-- C1 witness: an "Error:" line followed by a second "Error:" line makes
hashFile perform exactly two reads (timeouts 120 then 10) and return the
second line. -/
theorem hashFile_error_skip_witness :
    (hashFile "f.g" ⟨["Error: a\n", "Error: b\n"], [], []⟩).2.reads =
      [120, 10] ∧
    (hashFile "f.g" ⟨["Error: a\n", "Error: b\n"], [], []⟩).1 = "Error: b" := by
  have h := hashFile_error_skip "f.g" "Error: a\n" "Error: b\n" [] [] []
    (by decide)
  exact ⟨h.1, h.2.2.2 (by decide)⟩

/-- C3: a (possibly re-read after the "Error:" skip) response line starting
with "Cannot find file" makes hashFile return the empty string; hashFile is
total, so no failure is raised on the missing-file path. -/
theorem hashFile_cannot_find (fp l1 l2 : String) (rest sent : List String)
    (reads : List Nat) :
    (pyStartswith (pyStrip l1) "Cannot find file" = true →
      (hashFile fp ⟨l1 :: l2 :: rest, sent, reads⟩).1 = "") ∧
    (pyStartswith (pyStrip l1) "Error:" = true →
      pyStartswith (pyStrip l2) "Cannot find file" = true →
      (hashFile fp ⟨l1 :: l2 :: rest, sent, reads⟩).1 = "") := by
  constructor
  · intro h1
    have he := cannot_imp_not_error (pyStrip l1) h1
    simp [hashFile, sendRawGCode, readResponse, he, h1]
  · intro he h2
    rw [hashFile_eval_error fp l1 l2 rest sent reads he]
    simp [h2]

/-- C3 witness: a concrete "Cannot find file" line yields the empty string,
directly and after an "Error:" skip. -/
theorem hashFile_cannot_find_witness :
    (hashFile "f.g" ⟨["Cannot find file f.g\n", "x"], [], []⟩).1 = "" ∧
    (hashFile "f.g" ⟨["Error: a\n", "Cannot find file f.g\n"], [], []⟩).1
      = "" := by
  refine ⟨(hashFile_cannot_find "f.g" "Cannot find file f.g\n" "x" [] [] []).1
    (by decide), ?_⟩
  exact (hashFile_cannot_find "f.g" "Error: a\n" "Cannot find file f.g\n"
    [] [] []).2 (by decide) (by decide)

/-- C4: getStatusResponse returns no snapshot for an empty line, the parsed
record for a non-empty valid-JSON line (in particular the literal status
line yields a record whose status field is "P"), and a parsing-kind failure
exactly when the line is non-empty and not valid JSON. -/
theorem getStatusResponse_parse (level : Int) (l : String)
    (rest sent : List String) (reads : List Nat) :
    (pyStrip l = "" →
      (getStatusResponse level ⟨l :: rest, sent, reads⟩).1 = Except.ok none) ∧
    (∀ j, json_loads (pyStrip l) = some j →
      (getStatusResponse level ⟨l :: rest, sent, reads⟩).1 =
        Except.ok (some j)) ∧
    ((getStatusResponse level ⟨l :: rest, sent, reads⟩).1 =
        Except.error PyErr.parseError ↔
      (pyStrip l ≠ "" ∧ json_loads (pyStrip l) = none)) ∧
    (getStatusResponse 2
        ⟨["\x7b\"status\":\"P\",\"fraction_printed\":42\x7d"], [], []⟩).1 =
      Except.ok (some (Json.obj
        [("status", Json.str "P"), ("fraction_printed", Json.num 42)])) ∧
    lookupDict [("status", Json.str "P"), ("fraction_printed", Json.num 42)]
        "status" = some (Json.str "P") := by
  refine ⟨?_, ?_, ?_, rfl, rfl⟩
  · intro hemp
    simp [getStatusResponse, sendRawGCode, readResponse, hemp]
  · intro j hj
    have hne : ¬pyStrip l = "" := by
      intro he
      rw [he] at hj
      rw [show json_loads "" = none from rfl] at hj
      exact Option.noConfusion hj
    simp [getStatusResponse, sendRawGCode, readResponse, hne, hj]
  · by_cases hemp : pyStrip l = ""
    · simp [getStatusResponse, sendRawGCode, readResponse, hemp]
    · cases hj : json_loads (pyStrip l) with
      | none => simp [getStatusResponse, sendRawGCode, readResponse, hemp, hj]
      | some j => simp [getStatusResponse, sendRawGCode, readResponse, hemp, hj]

/-- C4 witness: an empty line yields no snapshot; a malformed non-empty
line yields the parsing failure. -/
theorem getStatusResponse_parse_witness :
    (getStatusResponse 2 ⟨[""], [], []⟩).1 = Except.ok none ∧
    (getStatusResponse 2 ⟨["nope"], [], []⟩).1 =
      Except.error PyErr.parseError := by
  refine ⟨(getStatusResponse_parse 2 "" [] [] []).1 (by decide), ?_⟩
  exact (getStatusResponse_parse 2 "nope" [] [] []).2.2.1.mpr
    ⟨by decide, rfl⟩

/-- Evaluation of the state returned by getStatusResponse. -/
lemma getStatusResponse_state (level : Int) (st : ConnState) :
    (getStatusResponse level st).2 =
      { st with
        input := st.input.tail
        sent := st.sent ++ ["M408 S" ++ toString (min level 2) ++ "\n"]
        reads := st.reads ++ [10] } := by
  simp only [getStatusResponse]
  split
  · simp [sendRawGCode, readResponse_eval]
  · split <;> simp [sendRawGCode, readResponse_eval]

/-- C5 (amended): getStatusResponse(level) transmits exactly
`M408 S<min(level,2)>\n`; for requested levels that are at least 0 the
transmitted level is in {0,1,2} (in particular level 5 transmits
`M408 S2\n`); a negative requested level is transmitted unclamped. -/
theorem getStatusResponse_level_clamped (level : Int)
    (input sent : List String) (reads : List Nat) :
    (getStatusResponse level ⟨input, sent, reads⟩).2.sent =
      sent ++ ["M408 S" ++ toString (min level 2) ++ "\n"] ∧
    (0 ≤ level → min level 2 = 0 ∨ min level 2 = 1 ∨ min level 2 = 2) ∧
    (getStatusResponse 5 ⟨input, sent, reads⟩).2.sent =
      sent ++ ["M408 S2\n"] := by
  refine ⟨by rw [getStatusResponse_state], fun h0 => by omega, ?_⟩
  rw [getStatusResponse_state]
  rfl

/-- C5 witness: level 1 (within the documented range) is transmitted as
itself, and 1 is one of the allowed wire levels. -/
theorem getStatusResponse_level_clamped_witness :
    (getStatusResponse 1 ⟨[], [], []⟩).2.sent = ["M408 S1\n"] ∧
    (min (1 : Int) 2 = 0 ∨ min (1 : Int) 2 = 1 ∨ min (1 : Int) 2 = 2) := by
  have h := getStatusResponse_level_clamped 1 [] [] []
  exact ⟨by rw [h.1]; rfl, h.2.1 (by norm_num)⟩

/-- C5 counterexample: the claim that the transmitted level is always in
{0,1,2} fails at the concrete requested level -1, which is sent unclamped
as `M408 S-1\n`. -/
theorem getStatusResponse_level_counterexample :
    (getStatusResponse (-1) ⟨[], [], []⟩).2.sent = ["M408 S-1\n"] ∧
    "M408 S-1\n" ≠ "M408 S0\n" ∧
    "M408 S-1\n" ≠ "M408 S1\n" ∧
    "M408 S-1\n" ≠ "M408 S2\n" :=
  ⟨rfl, by decide, by decide, by decide⟩

/-- C6: isPrinting returns true exactly when getStatusResponse yields a
present snapshot whose status field is the string "P"; it returns false
when the snapshot is absent, and false when the status field holds any
other value. -/
theorem isPrinting_status_P (st : ConnState) :
    ((isPrinting st).1 = Except.ok true ↔
      ∃ j, (getStatusResponse 2 st).1 = Except.ok (some j) ∧
        subscript j "status" = Except.ok (Json.str "P")) ∧
    ((getStatusResponse 2 st).1 = Except.ok none →
      (isPrinting st).1 = Except.ok false) ∧
    (∀ j v, (getStatusResponse 2 st).1 = Except.ok (some j) →
      subscript j "status" = Except.ok v → v ≠ Json.str "P" →
      (isPrinting st).1 = Except.ok false) := by
  refine ⟨?_, ?_, ?_⟩
  · cases hr : (getStatusResponse 2 st).1 with
    | error e => simp only [isPrinting, hr]; simp
    | ok o =>
      cases o with
      | none => simp only [isPrinting, hr]; simp
      | some j =>
        cases hs : subscript j "status" with
        | error e => simp only [isPrinting, hr, hs]; simp [hs]
        | ok v => simp only [isPrinting, hr, hs]; simp [pyEqStr_P_iff, hs]
  · intro h
    simp only [isPrinting, h]
  · intro j v hr hs hne
    have hv : pyEqStr v "P" = false := by
      cases hx : pyEqStr v "P" with
      | false => rfl
      | true => exact absurd ((pyEqStr_P_iff v).mp hx) hne
    simp only [isPrinting, hr, hs, hv]

/-- C6 witness: status "P" yields true, status "I" yields false, and an
absent snapshot (empty line) yields false. -/
theorem isPrinting_status_P_witness :
    (isPrinting ⟨["\x7b\"status\":\"P\"\x7d"], [], []⟩).1 = Except.ok true ∧
    (isPrinting ⟨[], [], []⟩).1 = Except.ok false ∧
    (isPrinting ⟨["\x7b\"status\":\"I\"\x7d"], [], []⟩).1 =
      Except.ok false := by
  refine ⟨?_, ?_, ?_⟩
  · exact (isPrinting_status_P ⟨["\x7b\"status\":\"P\"\x7d"], [], []⟩).1.mpr
      ⟨Json.obj [("status", Json.str "P")], rfl, rfl⟩
  · exact (isPrinting_status_P ⟨[], [], []⟩).2.1 rfl
  · exact (isPrinting_status_P ⟨["\x7b\"status\":\"I\"\x7d"], [], []⟩).2.2
      (Json.obj [("status", Json.str "I")]) (Json.str "I") rfl rfl
      (by intro h; exact absurd (Json.str.inj h) (by decide))

/-- C8 counterexample: the claim that only the trailing terminator is
stripped and leading characters are preserved fails on the concrete data
"\nabc": the read returns "abc", not "\nabc". -/
theorem readResponse_leading_counterexample :
    (readResponse 10 ⟨["\nabc"], [], []⟩).1 = "abc" ∧ "abc" ≠ "\nabc" :=
  ⟨rfl, by decide⟩

/-- C8 (amended): readResponse returns the line with every leading AND
trailing carriage-return/newline character removed (Python
`strip("\r\n")` strips both ends); the interior of the line is unchanged
and the result neither starts nor ends with a CR or LF. -/
theorem readResponse_strips_both_ends (t : Nat) (l : String)
    (rest sent : List String) (reads : List Nat) :
    (readResponse t ⟨l :: rest, sent, reads⟩).1 = pyStrip l ∧
    ∃ pre post, l.data = pre ++ (pyStrip l).data ++ post ∧
      (∀ c ∈ pre, isCRLF c = true) ∧
      (∀ c ∈ post, isCRLF c = true) ∧
      (∀ c, (pyStrip l).data.head? = some c → isCRLF c = false) ∧
      (∀ c, (pyStrip l).data.getLast? = some c → isCRLF c = false) := by
  have hcore : (pyStrip l).data =
      ((l.data.dropWhile isCRLF).reverse.dropWhile isCRLF).reverse := rfl
  refine ⟨rfl, l.data.takeWhile isCRLF,
    ((l.data.dropWhile isCRLF).reverse.takeWhile isCRLF).reverse,
    ?_, ?_, ?_, ?_, ?_⟩
  · rw [hcore]
    have hm : l.data.dropWhile isCRLF =
        ((l.data.dropWhile isCRLF).reverse.dropWhile isCRLF).reverse ++
        ((l.data.dropWhile isCRLF).reverse.takeWhile isCRLF).reverse := by
      rw [← List.reverse_append, List.takeWhile_append_dropWhile,
        List.reverse_reverse]
    rw [List.append_assoc, ← hm, List.takeWhile_append_dropWhile]
  · intro c hc
    exact List.mem_takeWhile_imp hc
  · intro c hc
    rw [List.mem_reverse] at hc
    exact List.mem_takeWhile_imp hc
  · intro c hc
    rw [hcore] at hc
    have hm : l.data.dropWhile isCRLF =
        ((l.data.dropWhile isCRLF).reverse.dropWhile isCRLF).reverse ++
        ((l.data.dropWhile isCRLF).reverse.takeWhile isCRLF).reverse := by
      rw [← List.reverse_append, List.takeWhile_append_dropWhile,
        List.reverse_reverse]
    have hcne : ((l.data.dropWhile isCRLF).reverse.dropWhile isCRLF).reverse
        ≠ [] := by
      intro h
      rw [h] at hc
      exact Option.noConfusion hc
    have hm' : (l.data.dropWhile isCRLF).head? = some c := by
      rw [hm, List.head?_append_of_ne_nil _ hcne, hc]
    have hd := List.head?_dropWhile_not isCRLF l.data
    rw [hm'] at hd
    exact hd
  · intro c hc
    rw [hcore, List.getLast?_reverse] at hc
    have hd := List.head?_dropWhile_not isCRLF (l.data.dropWhile isCRLF).reverse
    rw [hc] at hd
    exact hd

/-- C8 witness: the amended strip behaviour at a concrete line. -/
theorem readResponse_strips_both_ends_witness :
    (readResponse 10 ⟨["abc\r\n"], [], []⟩).1 = pyStrip "abc\r\n" :=
  (readResponse_strips_both_ends 10 "abc\r\n" [] [] []).1

/-- C9: the ftp_port constructor argument has no effect on behaviour: two
clients built with different ftp ports are equal, and every sequence of
operations sends identical bytes and returns identical results on both. -/
theorem ftpPort_no_effect (host : String) (tp f1 f2 : Int)
    (incoming : List String) (ops : List Op) :
    mkRepRap host tp f1 incoming = mkRepRap host tp f2 incoming ∧
    runOps ops (mkRepRap host tp f1 incoming) =
      runOps ops (mkRepRap host tp f2 incoming) :=
  ⟨rfl, rfl⟩

/-- C10: when the status snapshot is present but its parsed object has no
'status' field, isPrinting raises the key-lookup failure instead of
returning false. -/
theorem isPrinting_missing_status_key (l : String) (rest sent : List String)
    (reads : List Nat) (fields : List (String × Json))
    (hne : pyStrip l ≠ "")
    (hj : json_loads (pyStrip l) = some (Json.obj fields))
    (hk : lookupDict fields "status" = none) :
    (isPrinting ⟨l :: rest, sent, reads⟩).1 = Except.error PyErr.keyError := by
  have hr : (getStatusResponse 2 ⟨l :: rest, sent, reads⟩).1 =
      Except.ok (some (Json.obj fields)) := by
    simp [getStatusResponse, sendRawGCode, readResponse, hne, hj]
  simp only [isPrinting, hr]
  simp [subscript, hk]

/-- C10 witness: a snapshot whose object lacks the 'status' key makes
isPrinting fail with the key error. -/
theorem isPrinting_missing_status_key_witness :
    (isPrinting ⟨["\x7b\"x\":1\x7d"], [], []⟩).1 =
      Except.error PyErr.keyError :=
  isPrinting_missing_status_key "\x7b\"x\":1\x7d" [] [] []
    [("x", Json.num 1)] (by decide) rfl rfl
